import Mathlib

/-!
Shallow embedding of the render package of mitranim/gotools.

The functions Render, RenderPage, RenderStandalone and RenderError are
translated from src/render/render.go.  The helpers that file calls but whose
own files are not part of the sources — parsePath, pathsToTemplates,
renderAt, ErrorCode, ErrorPath, the configuration record and the readiness
flag — are modelled from the specification and say so in their doc comments.

Modelling conventions: Go byte slices holding rendered text are Lean
strings; the Go string-keyed data map is an association list whose values
distinguish pre-escaped HTML from other values; the for loop of RenderError
is given explicit fuel, with none meaning that the iteration budget was
exhausted while the loop was still running; a Go panic raised by the
readiness assertion is a distinguished outcome, not a normal error return.
-/

namespace Gotools

/-- Rendered bytes: a Go byte slice holding template output. -/
abbrev Bytes := String

/-- A value stored in the data bag: either pre-escaped HTML, Go type
template.HTML, or any other value, kept opaque as a string. -/
inductive Val where
  | html (s : String)
  | str (s : String)
  deriving DecidableEq

/-- The data bag: the Go string-keyed map of arbitrary values, modelled as
an association list read through bagGet and written through bagSet. -/
abbrev Bag := List (String × Val)

/-- Map read: the value at the key, if present. -/
def bagGet (bag : Bag) (k : String) : Option Val :=
  (bag.find? (fun p => p.fst == k)).map Prod.snd

/-- Map write: replaces any existing entry for the key. -/
def bagSet (bag : Bag) (k : String) (v : Val) : Bag :=
  (k, v) :: bag.eraseP (fun p => p.fst == k)

/-- The Go type assertion on the content key, render.go line 68: the HTML
string stored there, or the zero value when the key is absent or holds a
value of another type. -/
def contentHTML (bag : Bag) : String :=
  match bagGet bag "content" with
  | some (Val.html s) => s
  | _ => ""

/-- Modelled from the spec: the failure taxonomy of section 7 — NotFound
for an absent path or template, an execution failure otherwise, carrying
its message. -/
inductive Err where
  | notFound
  | exec (msg : String)
  deriving DecidableEq

/-- The package's NotFound error value, called err404 in the source. -/
def err404 : Err := Err.notFound

/-- Modelled from the spec: ErrorCode maps NotFound to 404 and any
unclassified failure to 500, section 4.4. -/
def ErrorCode : Err → Nat
  | Err.notFound => 404
  | Err.exec _ => 500

/-- Modelled from the spec: the fixed built-in default message used when no
UltimateFailure bytes are configured, called err500ISE in the source; its
exact text is not among the sources, only that it is a fixed non-empty
message. -/
def err500ISE : Bytes := "500 internal server error"

/-- Modelled from the spec: a named template registry.  Looking up an
identifier yields the compiled template when registered; executing a found
template against a bag yields bytes or an execution failure.  Per the
executor interface of section 6, only an absent identifier produces a
NotFound-classified failure. -/
structure Registry where
  lookup : String → Option (Bag → Except String Bytes)

/-- Modelled from the spec: the process-wide state — the readiness flag set
at setup, the Pages and Standalone registries, and the configuration: the
optional CodePath override and the UltimateFailure bytes, the empty string
meaning unset. -/
structure Env where
  ready : Bool
  Pages : Registry
  Standalone : Registry
  CodePath : Nat → Option String
  UltimateFailure : Bytes

/-- Modelled from the spec: ErrorPath consults the optional CodePath
override for the error's code and otherwise uses the decimal string of the
code, section 4.4. -/
def ErrorPath (env : Env) (e : Err) : String :=
  match env.CodePath (ErrorCode e) with
  | some p => p
  | none => toString (ErrorCode e)

/-- Split a character list on the path separator. -/
def splitSlash : List Char → List (List Char)
  | [] => [[]]
  | c :: rest =>
    match splitSlash rest with
    | [] => [[]]
    | seg :: segs => if c = '/' then [] :: seg :: segs else (c :: seg) :: segs

/-- Join path segments with the separator. -/
def joinSlash : List (List Char) → List Char
  | [] => []
  | [seg] => seg
  | seg :: segs => seg ++ '/' :: joinSlash segs

/-- Surrounding-whitespace trim, Go strings.TrimSpace. -/
def trimBytes (s : String) : String :=
  String.mk (((s.data.dropWhile Char.isWhitespace).reverse.dropWhile Char.isWhitespace).reverse)

/-- Modelled from the spec: separator and casing normalization — lower-case
the path and drop a trailing separator, section 4.1. -/
def normalizePath (p : String) : String :=
  let l := p.data.map Char.toLower
  String.mk (if l.getLast? = some '/' then l.dropLast else l)

/-- Modelled from the spec: parsePath rejects the empty path and a path
whose segments would escape the root, normalizes, and fails with NotFound
when the normalized path has no registered template or the registry has no
root layout, section 4.1. -/
def parsePath (reg : Registry) (path : String) : Except Err String :=
  if path = "" then Except.error err404
  else if (splitSlash path.data).any (fun seg => seg == ['.', '.']) then Except.error err404
  else
    let p := normalizePath path
    if (reg.lookup p).isSome && (reg.lookup "").isSome then Except.ok p
    else Except.error err404

/-- Modelled from the spec: expand a normalized path into the leaf-first
chain of template identifiers, progressively stripping the last segment and
ending with the empty identifier of the root layout, section 4.1. -/
def pathsToTemplates (p : String) : List String :=
  let segs := splitSlash p.data
  ((List.range segs.length).reverse.map (fun i => String.mk (joinSlash (segs.take (i + 1))))) ++ [""]

/-- Modelled from the spec: renderAt executes the template at the given
identifier of the given registry against the bag; NotFound when the
identifier is not registered, the executor's failure otherwise, section 6. -/
def renderAt (reg : Registry) (path : String) (bag : Bag) : Except Err Bytes :=
  match reg.lookup path with
  | none => Except.error err404
  | some f =>
    match f bag with
    | Except.ok b => Except.ok b
    | Except.error m => Except.error (Err.exec m)

/-- Outcome of a call guarded by the readiness assertion: the panic raised
before initialization, or the ordinary result. -/
inductive Res (α : Type) where
  | panic
  | ok (a : α)
  deriving DecidableEq

/-- The template-composition loop of RenderPage, render.go lines 58 to 65:
render each identifier in turn, aborting on the first failure, and store
each success under the content key, trimmed and marked as HTML.  Returns
the bag as left by the loop together with the error, if any. -/
def renderLoop (env : Env) : List String → Bag → Bag × Option Err
  | [], bag => (bag, none)
  | pt :: rest, bag =>
    match renderAt env.Pages pt bag with
    | Except.error e => (bag, some e)
    | Except.ok bytes => renderLoop env rest (bagSet bag "content" (Val.html (trimBytes bytes)))

/-- The identifiers actually handed to the template executor by
renderLoop, in order. -/
def renderLoopTrace (env : Env) : List String → Bag → List String
  | [], _ => []
  | pt :: rest, bag =>
    match renderAt env.Pages pt bag with
    | Except.error _ => [pt]
    | Except.ok bytes => pt :: renderLoopTrace env rest (bagSet bag "content" (Val.html (trimBytes bytes)))

/-- RenderPage, render.go lines 40 to 71.  The Go nil-map substitution is
not modelled: a bag value is always present here. -/
def RenderPage (env : Env) (path : String) (bag : Bag) : Res (Except Err Bytes × Bag) :=
  if env.ready then
    match parsePath env.Pages path with
    | Except.error e => Res.ok (Except.error e, bag)
    | Except.ok p =>
      match renderLoop env (pathsToTemplates p) bag with
      | (bag2, some e) => Res.ok (Except.error e, bag2)
      | (bag2, none) => Res.ok (Except.ok (contentHTML bag2), bag2)
  else Res.panic

/-- RenderStandalone, render.go lines 75 to 84. -/
def RenderStandalone (env : Env) (path : String) (bag : Bag) : Res (Except Err Bytes) :=
  if env.ready then
    if (env.Standalone.lookup path).isNone then Res.ok (Except.error err404)
    else Res.ok (renderAt env.Standalone path bag)
  else Res.panic

/-- The cascade loop of RenderError, render.go lines 117 to 144, with
explicit fuel: none means the iteration budget ran out with the loop still
going.  Arguments after the fuel: the codes seen so far, the current bytes,
the last error, the current error and the bag. -/
def renderErrorLoop (env : Env) : Nat → List Nat → Bytes → Option Err → Option Err → Bag → Option (Res (Bytes × Option Err × Bag))
  | _, _, bytes, lastErr, none, bag => some (Res.ok (bytes, lastErr, bag))
  | 0, _, _, _, some _, _ => none
  | fuel + 1, codes, _, _, some e, bag =>
    let code := ErrorCode e
    if codes.contains code && code == 500 then
      some (Res.ok ((if env.UltimateFailure == "" then err500ISE else env.UltimateFailure), some e, bag))
    else
      let code2 := if codes.contains code then 500 else code
      match RenderPage env (ErrorPath env e) bag with
      | Res.panic => some Res.panic
      | Res.ok (Except.ok b, bag2) => renderErrorLoop env fuel (code2 :: codes) b (some e) none bag2
      | Res.ok (Except.error e2, bag2) => renderErrorLoop env fuel (code2 :: codes) "" (some e) (some e2) bag2

/-- RenderError, render.go lines 104 to 147. -/
def RenderError (env : Env) (fuel : Nat) (err : Option Err) (bag : Bag) : Option (Res (Bytes × Option Err × Bag)) :=
  renderErrorLoop env fuel [] "" none err bag

/-- Render, render.go lines 25 to 35. -/
def Render (env : Env) (fuel : Nat) (path : String) (bag : Bag) : Option (Res (Bytes × Option Err × Bag)) :=
  if env.ready then
    match RenderPage env path bag with
    | Res.panic => some Res.panic
    | Res.ok (Except.ok b, bag2) => some (Res.ok (b, none, bag2))
    | Res.ok (Except.error e, bag2) => RenderError env fuel (some e) bag2
  else some Res.panic

deriving instance DecidableEq for Except

/-- A ready environment with no registered templates, no CodePath override
and no UltimateFailure bytes. -/
def env404 : Env :=
  { ready := true, Pages := ⟨fun _ => none⟩, Standalone := ⟨fun _ => none⟩,
    CodePath := fun _ => none, UltimateFailure := "" }

/-- A ready environment whose 500 error page exists and renders, while the
404 page is missing. -/
def env500ok : Env :=
  { ready := true,
    Pages := ⟨fun p =>
      if p == "500" then some (fun _ => Except.ok "FIVEHUNDRED")
      else if p == "" then some (fun bag => Except.ok (contentHTML bag))
      else none⟩,
    Standalone := ⟨fun _ => none⟩, CodePath := fun _ => none, UltimateFailure := "" }

/-- A ready environment with no registered templates but with configured
UltimateFailure bytes. -/
def envC3 : Env :=
  { ready := true, Pages := ⟨fun _ => none⟩, Standalone := ⟨fun _ => none⟩,
    CodePath := fun _ => none, UltimateFailure := "ULTIMATE" }

/-- A ready environment whose page at identifier a renders fixed
whitespace-padded bytes and whose root layout brackets the content it
receives. -/
def envC5 : Env :=
  { ready := true,
    Pages := ⟨fun p =>
      if p == "a" then some (fun _ => Except.ok "  hi  ")
      else if p == "" then some (fun bag => Except.ok ("[" ++ contentHTML bag ++ "]"))
      else none⟩,
    Standalone := ⟨fun _ => none⟩, CodePath := fun _ => none, UltimateFailure := "" }

/-- A ready environment whose page at identifier a renders and whose root
layout fails to execute. -/
def envC6 : Env :=
  { ready := true,
    Pages := ⟨fun p =>
      if p == "a" then some (fun _ => Except.ok "A")
      else if p == "" then some (fun _ => Except.error "boom")
      else none⟩,
    Standalone := ⟨fun _ => none⟩, CodePath := fun _ => none, UltimateFailure := "" }

/-- An environment whose readiness flag is not set. -/
def envUnready : Env :=
  { ready := false, Pages := ⟨fun _ => none⟩, Standalone := ⟨fun _ => none⟩,
    CodePath := fun _ => none, UltimateFailure := "" }

/-- A ready environment with one standalone template and no pages. -/
def envC8 : Env :=
  { ready := true, Pages := ⟨fun _ => none⟩,
    Standalone := ⟨fun p => if p == "$s" then some (fun _ => Except.ok "S") else none⟩,
    CodePath := fun _ => none, UltimateFailure := "" }

/-- A ready environment whose leaf template at identifier a echoes the
bag's current content value into its output. -/
def envC9 : Env :=
  { ready := true,
    Pages := ⟨fun p =>
      if p == "a" then some (fun bag => Except.ok ("LEAF[" ++ contentHTML bag ++ "]"))
      else if p == "" then some (fun bag => Except.ok (contentHTML bag))
      else none⟩,
    Standalone := ⟨fun _ => none⟩, CodePath := fun _ => none, UltimateFailure := "" }

/-- A ready environment whose leaf template at identifier a ignores the bag
and whose root layout brackets the content it receives. -/
def envC9b : Env :=
  { ready := true,
    Pages := ⟨fun p =>
      if p == "a" then some (fun _ => Except.ok "X")
      else if p == "" then some (fun bag => Except.ok ("[" ++ contentHTML bag ++ "]"))
      else none⟩,
    Standalone := ⟨fun _ => none⟩, CodePath := fun _ => none, UltimateFailure := "" }

/-- A ready environment where the leaf page at identifier a/b renders but
the enclosing layout at identifier a is missing. -/
def envC10 : Env :=
  { ready := true,
    Pages := ⟨fun p =>
      if p == "a/b" then some (fun _ => Except.ok " B ")
      else if p == "" then some (fun bag => Except.ok (contentHTML bag))
      else none⟩,
    Standalone := ⟨fun _ => none⟩, CodePath := fun _ => none, UltimateFailure := "" }

/-- Writing a key and reading it back yields the written value. -/
theorem bagGet_bagSet_same (bag : Bag) (k : String) (v : Val) :
    bagGet (bagSet bag k v) k = some v := by
  simp [bagGet, bagSet, List.find?]

/-- Erasing the entries of one key does not change the lookup of another. -/
theorem find_eraseP_ne (k j : String) (h : j ≠ k) :
    ∀ bag : Bag, List.find? (fun p => p.fst == j) (List.eraseP (fun p => p.fst == k) bag) =
      List.find? (fun p => p.fst == j) bag := by
  intro bag
  induction bag with
  | nil => rfl
  | cons hd t ih =>
    cases hk : (hd.fst == k) with
    | true =>
      have hdk : hd.fst = k := eq_of_beq hk
      have hj : (hd.fst == j) = false := by
        apply beq_eq_false_iff_ne.mpr
        rw [hdk]
        exact fun hc => h hc.symm
      simp [List.eraseP, List.find?, hk, hj]
    | false =>
      cases hj : (hd.fst == j) with
      | true => simp [List.eraseP, List.find?, hk, hj]
      | false => simp [List.eraseP, List.find?, hk, hj]; exact ih

/-- Writing one key does not change the read of a different key. -/
theorem bagGet_bagSet_ne (bag : Bag) (k j : String) (v : Val) (h : j ≠ k) :
    bagGet (bagSet bag k v) j = bagGet bag j := by
  have hkj : ((k, v).fst == j) = false := by
    apply beq_eq_false_iff_ne.mpr
    exact fun hc => h hc.symm
  simp only [bagGet, bagSet, List.find?, hkj]
  rw [find_eraseP_ne k j h bag]

/-- Writing the same key twice keeps only the second write. -/
theorem bagSet_bagSet (bag : Bag) (k : String) (v w : Val) :
    bagSet (bagSet bag k v) k w = bagSet bag k w := by
  simp [bagSet, List.eraseP]

/-- Appending to a chain whose first part fully succeeds continues the loop
from the bag the first part produced. -/
theorem renderLoop_append_ok (env : Env) :
    ∀ (l1 : List String) (l2 : List String) (bag bag1 : Bag),
      renderLoop env l1 bag = (bag1, none) →
      renderLoop env (l1 ++ l2) bag = renderLoop env l2 bag1 := by
  intro l1
  induction l1 with
  | nil =>
    intro l2 bag bag1 h
    simp [renderLoop] at h
    rw [← h]
    rfl
  | cons pt rest ih =>
    intro l2 bag bag1 h
    rw [renderLoop] at h
    rw [List.cons_append, renderLoop]
    cases hat : renderAt env.Pages pt bag with
    | error e => rw [hat] at h; simp at h
    | ok b =>
      rw [hat] at h
      simp only []
      exact ih l2 _ bag1 h

/-- A fully successful chain invokes exactly its own identifiers. -/
theorem renderLoopTrace_all_ok (env : Env) :
    ∀ (l : List String) (bag bag1 : Bag),
      renderLoop env l bag = (bag1, none) → renderLoopTrace env l bag = l := by
  intro l
  induction l with
  | nil => intro bag bag1 _; rfl
  | cons pt rest ih =>
    intro bag bag1 h
    rw [renderLoop] at h
    rw [renderLoopTrace]
    cases hat : renderAt env.Pages pt bag with
    | error e => rw [hat] at h; simp at h
    | ok b =>
      rw [hat] at h
      simp only []
      rw [ih _ bag1 h]

/-- The invocation trace of an appended chain whose first part fully
succeeds is the first part followed by the trace of the rest. -/
theorem renderLoopTrace_append_ok (env : Env) :
    ∀ (l1 : List String) (l2 : List String) (bag bag1 : Bag),
      renderLoop env l1 bag = (bag1, none) →
      renderLoopTrace env (l1 ++ l2) bag = l1 ++ renderLoopTrace env l2 bag1 := by
  intro l1
  induction l1 with
  | nil =>
    intro l2 bag bag1 h
    simp [renderLoop] at h
    rw [← h]
    rfl
  | cons pt rest ih =>
    intro l2 bag bag1 h
    rw [renderLoop] at h
    rw [List.cons_append, renderLoopTrace]
    cases hat : renderAt env.Pages pt bag with
    | error e => rw [hat] at h; simp at h
    | ok b =>
      rw [hat] at h
      simp only []
      rw [ih l2 _ bag1 h]
      rfl

/-- After a fully successful non-empty chain, the content key holds an
HTML value. -/
theorem renderLoop_content (env : Env) :
    ∀ (l : List String) (bag bag1 : Bag), l ≠ [] → renderLoop env l bag = (bag1, none) →
      ∃ s, bagGet bag1 "content" = some (Val.html s) := by
  intro l
  induction l with
  | nil => intro bag bag1 hne _; exact absurd rfl hne
  | cons pt rest ih =>
    intro bag bag1 _ h
    rw [renderLoop] at h
    cases hat : renderAt env.Pages pt bag with
    | error e => rw [hat] at h; simp at h
    | ok b =>
      rw [hat] at h
      simp only [] at h
      cases rest with
      | nil =>
        rw [renderLoop] at h
        have hb : bagSet bag "content" (Val.html (trimBytes b)) = bag1 := by
          injection h
        exact ⟨trimBytes b, hb ▸ bagGet_bagSet_same bag "content" (Val.html (trimBytes b))⟩
      | cons q qs => exact ih _ bag1 (by simp) h

/-- Inversion of a successful RenderPage call: the readiness flag was set,
the path parsed, the whole chain succeeded, and the returned bytes are the
content read back from the final bag. -/
theorem RenderPage_ok_inv (env : Env) (path : String) (bag : Bag) (bytes : Bytes) (bag2 : Bag)
    (h : RenderPage env path bag = Res.ok (Except.ok bytes, bag2)) :
    env.ready = true ∧ ∃ p, parsePath env.Pages path = Except.ok p ∧
      renderLoop env (pathsToTemplates p) bag = (bag2, none) ∧ bytes = contentHTML bag2 := by
  unfold RenderPage at h
  split at h
  case isTrue hr =>
    refine ⟨hr, ?_⟩
    split at h
    case h_1 e heq => simp at h
    case h_2 p heq =>
      refine ⟨p, heq, ?_⟩
      split at h
      case h_1 bag2' e heq2 => simp at h
      case h_2 bag2' heq2 =>
        simp only [Res.ok.injEq, Prod.mk.injEq, Except.ok.injEq] at h
        obtain ⟨hb, hbag⟩ := h
        subst hbag
        exact ⟨heq2, hb.symm⟩
  case isFalse hr => simp at h

/-- A fully successful prefix of the loop ends in a bag reached from the
start bag by one content write. -/
theorem renderLoop_bagSet (env : Env) :
    ∀ (l : List String) (bag : Bag) (v : Val) (bag1 : Bag),
      renderLoop env l (bagSet bag "content" v) = (bag1, none) →
      ∃ w, bag1 = bagSet bag "content" w := by
  intro l
  induction l with
  | nil =>
    intro bag v bag1 h
    simp [renderLoop] at h
    exact ⟨v, h.symm⟩
  | cons pt rest ih =>
    intro bag v bag1 h
    rw [renderLoop] at h
    cases hat : renderAt env.Pages pt (bagSet bag "content" v) with
    | error e => rw [hat] at h; simp at h
    | ok b =>
      rw [hat] at h
      simp only [] at h
      rw [bagSet_bagSet] at h
      exact ih bag _ bag1 h

/-- When the page render attempted by an iteration of the cascade fails
with the same non-500 error again, the loop never exits: the render attempt
uses ErrorPath of the error value, which the escalation of the local code
variable to 500 does not affect, so no iteration ever classifies as 500 and
the terminal double-500 branch is unreachable. -/
theorem renderErrorLoop_diverges (env : Env) (e : Err) (hc : (ErrorCode e == 500) = false)
    (h : ∀ bag : Bag, RenderPage env (ErrorPath env e) bag = Res.ok (Except.error e, bag)) :
    ∀ (fuel : Nat) (codes : List Nat) (b : Bytes) (le : Option Err) (bag : Bag),
      renderErrorLoop env fuel codes b le (some e) bag = none := by
  intro fuel
  induction fuel with
  | zero => intro codes b le bag; rfl
  | succ n ih =>
    intro codes b le bag
    rw [renderErrorLoop]
    simp only [hc, Bool.and_false, Bool.false_eq_true, if_false, h bag]
    exact ih _ _ _ _

/-- C1: the claim says the RenderError cascade terminates after a small
constant number of iterations for every initial error and bag, stopping at
the latest at the second occurrence of code 500.  The code refutes it: with
the 404 page unregistered and an initial NotFound error, every iteration
re-attempts the 404 page (the attempt renders ErrorPath of the error, not
the escalated code) and fails with NotFound again, so no iteration budget
ever suffices — the loop never terminates. -/
theorem c1_cascade_never_terminates :
    ∀ fuel : Nat, RenderError env404 fuel (some Err.notFound) [] = none := by
  intro fuel
  unfold RenderError
  exact renderErrorLoop_diverges env404 Err.notFound (by decide) (fun bag => rfl) fuel [] "" none []

/-- C2: the claim says an iteration whose code was already seen escalates
and attempts the 500 error page, never the repeated code's own page.  The
code refutes it: in env500ok the 500 page exists and renders (third
conjunct), the path attempted for a NotFound error is "404" (second
conjunct), and the cascade started by a NotFound failure whose 404 page is
missing diverges without ever attempting the 500 page (first conjunct) —
the escalated iteration re-renders the 404 page instead. -/
theorem c2_escalation_rerenders_original_page :
    (∀ fuel : Nat, RenderError env500ok fuel (some Err.notFound) [] = none) ∧
    ErrorPath env500ok Err.notFound = "404" ∧
    RenderPage env500ok "500" [] =
      Res.ok (Except.ok "FIVEHUNDRED", [("content", Val.html "FIVEHUNDRED")]) := by
  refine ⟨fun fuel => ?_, by decide, by decide⟩
  unfold RenderError
  exact renderErrorLoop_diverges env500ok Err.notFound (by decide) (fun bag => rfl) fuel [] "" none []

/-- C3: the claim says RenderError never fails and always returns non-empty
bytes together with the last error.  The code refutes it: in envC3 the
UltimateFailure bytes are configured (second conjunct), yet the cascade
started by a NotFound error with no 404 page registered never returns at
all — for every iteration budget the loop is still running. -/
theorem c3_renderError_fails_to_return :
    (∀ fuel : Nat, RenderError envC3 fuel (some Err.notFound) [] = none) ∧
    envC3.UltimateFailure = "ULTIMATE" := by
  refine ⟨fun fuel => ?_, rfl⟩
  unfold RenderError
  exact renderErrorLoop_diverges envC3 Err.notFound (by decide) (fun bag => rfl) fuel [] "" none []

/-- C4: when the current error classifies to 500 and 500 was already seen,
the loop terminates at once with the configured UltimateFailure bytes if
non-empty, otherwise the built-in default message, and the last error is
the current double-500 error. -/
theorem c4_double500_terminal_bytes (env : Env) (fuel : Nat) (codes : List Nat) (b : Bytes)
    (le : Option Err) (e : Err) (bag : Bag)
    (h5 : ErrorCode e = 500) (hseen : codes.contains 500 = true) :
    renderErrorLoop env (fuel + 1) codes b le (some e) bag =
      some (Res.ok ((if env.UltimateFailure == "" then err500ISE else env.UltimateFailure),
        some e, bag)) := by
  rw [renderErrorLoop]
  have hcond : (codes.contains (ErrorCode e) && (ErrorCode e == 500)) = true := by
    rw [h5, hseen]; rfl
  simp only [hcond, if_true]

/-- Witness for C4 at a concrete double-500 state: with no UltimateFailure
configured the built-in default message is returned. -/
theorem c4_double500_terminal_bytes_witness :
    renderErrorLoop env404 1 [500] "" none (some (Err.exec "x")) [] =
      some (Res.ok (err500ISE, some (Err.exec "x"), ([] : Bag))) := by
  have h := c4_double500_terminal_bytes env404 0 [500] "" none (Err.exec "x") [] (by decide) (by decide)
  simpa [env404] using h

/-- C5: after each successful template of the chain the content key is set
to the trimmed rendered bytes marked as HTML (second conjunct), and a
successful RenderPage returns exactly the value read back from the content
key of the final bag (first conjunct). -/
theorem c5_content_threading (env : Env) (path : String) (bag : Bag) (bytes : Bytes) (bag2 : Bag)
    (pt : String) (rest : List String) (b : Bytes) (bag0 : Bag)
    (h : RenderPage env path bag = Res.ok (Except.ok bytes, bag2))
    (hstep : renderAt env.Pages pt bag0 = Except.ok b) :
    (bytes = contentHTML bag2 ∧ bagGet bag2 "content" = some (Val.html bytes)) ∧
    renderLoop env (pt :: rest) bag0 =
      renderLoop env rest (bagSet bag0 "content" (Val.html (trimBytes b))) := by
  constructor
  · obtain ⟨hr, p, hp, hloop, hbytes⟩ := RenderPage_ok_inv env path bag bytes bag2 h
    have hne : pathsToTemplates p ≠ [] := by simp [pathsToTemplates]
    obtain ⟨s, hs⟩ := renderLoop_content env (pathsToTemplates p) bag bag2 hne hloop
    have : contentHTML bag2 = s := by simp [contentHTML, hs]
    refine ⟨hbytes, ?_⟩
    rw [hs, hbytes, this]
  · rw [renderLoop, hstep]

/-- Witness for C5 at a concrete successful render: the leaf bytes are
trimmed, stored as HTML, and the returned bytes are the final content. -/
theorem c5_content_threading_witness :
    (("[hi]" : Bytes) = contentHTML [("content", Val.html "[hi]")] ∧
      bagGet [("content", Val.html "[hi]")] "content" = some (Val.html "[hi]")) ∧
    renderLoop envC5 ("a" :: [""]) [] =
      renderLoop envC5 [""] (bagSet [] "content" (Val.html (trimBytes "  hi  "))) :=
  c5_content_threading envC5 "a" [] "[hi]" [("content", Val.html "[hi]")] "a" [""] "  hi  " []
    (by decide) (by decide)

/-- C6: when the executor fails on a template of the chain, RenderPage
aborts there and returns that failure unchanged with no byte payload, and
the invocation trace shows no later template of the chain is invoked. -/
theorem c6_abort_on_first_failure (env : Env) (path p : String) (pre : List String) (pt : String)
    (post : List String) (bag bag1 : Bag) (e : Err)
    (hready : env.ready = true)
    (hparse : parsePath env.Pages path = Except.ok p)
    (hchain : pathsToTemplates p = pre ++ pt :: post)
    (hpre : renderLoop env pre bag = (bag1, none))
    (hfail : renderAt env.Pages pt bag1 = Except.error e) :
    RenderPage env path bag = Res.ok (Except.error e, bag1) ∧
    renderLoopTrace env (pathsToTemplates p) bag = pre ++ [pt] := by
  have hloop : renderLoop env (pre ++ pt :: post) bag = (bag1, some e) := by
    rw [renderLoop_append_ok env pre (pt :: post) bag bag1 hpre, renderLoop, hfail]
  constructor
  · unfold RenderPage
    rw [if_pos hready, hparse]
    simp only []
    rw [hchain, hloop]
  · rw [hchain, renderLoopTrace_append_ok env pre (pt :: post) bag bag1 hpre]
    rw [renderLoopTrace, hfail]

/-- Witness for C6 at a concrete chain whose root layout fails: the leaf
renders, the root fails, the failure is surfaced unchanged and the trace
stops at the failing identifier. -/
theorem c6_abort_on_first_failure_witness :
    RenderPage envC6 "a" [] = Res.ok (Except.error (Err.exec "boom"), [("content", Val.html "A")]) ∧
    renderLoopTrace envC6 (pathsToTemplates "a") [] = ["a"] ++ [""] :=
  c6_abort_on_first_failure envC6 "a" "a" ["a"] "" [] [] [("content", Val.html "A")]
    (Err.exec "boom") (by decide) (by decide) (by decide) (by decide) (by decide)

/-- C7 counterexample: the claim says every entry point, RenderError
included, performs the readiness check before any other work and fails
fast with a panic when invoked before initialization.  In an environment
whose readiness flag is unset, RenderError called with a nil error returns
normally — empty bytes and no error — instead of panicking. -/
theorem c7_renderError_unready_counterexample :
    envUnready.ready = false ∧
    RenderError envUnready 5 none [] = some (Res.ok ("", none, ([] : Bag))) :=
  ⟨rfl, rfl⟩

/-- C7 amended: Render, RenderPage and RenderStandalone perform the
readiness check before any other work and panic when invoked before
initialization; RenderError performs no readiness check of its own — with
a nil error it returns normally, and with a non-nil error it panics only
indirectly, when its first render attempt reaches RenderPage. -/
theorem c7_readiness_gate_amended (env : Env) (fuel : Nat) (path : String) (bag : Bag) (e : Err)
    (h : env.ready = false) :
    RenderPage env path bag = Res.panic ∧
    RenderStandalone env path bag = Res.panic ∧
    Render env fuel path bag = some Res.panic ∧
    RenderError env fuel none bag = some (Res.ok ("", none, bag)) ∧
    RenderError env (fuel + 1) (some e) bag = some Res.panic := by
  refine ⟨?_, ?_, ?_, ?_, ?_⟩
  · simp [RenderPage, h]
  · simp [RenderStandalone, h]
  · simp [Render, h]
  · cases fuel <;> rfl
  · rw [RenderError, renderErrorLoop]
    have hcont : (List.contains [] (ErrorCode e) && (ErrorCode e == 500)) = false := by
      simp [List.contains]
    simp only [hcont, Bool.false_eq_true, if_false]
    simp [RenderPage, h]

/-- Witness for the amended C7 at a concrete unready environment. -/
theorem c7_readiness_gate_amended_witness :
    RenderPage envUnready "x" [] = Res.panic ∧
    RenderStandalone envUnready "x" [] = Res.panic ∧
    Render envUnready 0 "x" [] = some Res.panic ∧
    RenderError envUnready 0 none [] = some (Res.ok ("", none, ([] : Bag))) ∧
    RenderError envUnready (0 + 1) (some Err.notFound) [] = some Res.panic :=
  c7_readiness_gate_amended envUnready 0 "x" [] Err.notFound (by decide)

/-- C8: RenderStandalone fails with NotFound exactly when the path is
absent from the standalone registry (first conjunct), its result is always
the executor's result for the standalone registry, unchanged (second
conjunct), and it is independent of the page hierarchy (third conjunct:
replacing the Pages registry does not change it). -/
theorem c8_standalone_registry_gate (env : Env) (path : String) (bag : Bag) (r : Registry)
    (hready : env.ready = true) :
    (RenderStandalone env path bag = Res.ok (Except.error err404) ↔
      env.Standalone.lookup path = none) ∧
    RenderStandalone env path bag = Res.ok (renderAt env.Standalone path bag) ∧
    RenderStandalone { env with Pages := r } path bag = RenderStandalone env path bag := by
  refine ⟨?_, ?_, ?_⟩
  · cases hl : env.Standalone.lookup path with
    | none => simp [RenderStandalone, hready, hl, renderAt, err404]
    | some f =>
      simp only [RenderStandalone, hready, if_true, hl, Option.isNone_some, renderAt]
      cases hf : f bag with
      | ok b => simp [err404]
      | error m => simp [err404]
  · cases hl : env.Standalone.lookup path with
    | none => simp [RenderStandalone, hready, hl, renderAt, err404]
    | some f => simp [RenderStandalone, hready, hl, renderAt]
  · rfl

/-- Witness for C8 at a concrete registered standalone path. -/
theorem c8_standalone_registry_gate_witness :
    (RenderStandalone envC8 "$s" [] = Res.ok (Except.error err404) ↔
      envC8.Standalone.lookup "$s" = none) ∧
    RenderStandalone envC8 "$s" [] = Res.ok (renderAt envC8.Standalone "$s" []) ∧
    RenderStandalone { envC8 with Pages := ⟨fun _ => some (fun _ => Except.ok "Z")⟩ } "$s" [] =
      RenderStandalone envC8 "$s" [] :=
  c8_standalone_registry_gate envC8 "$s" [] ⟨fun _ => some (fun _ => Except.ok "Z")⟩ (by decide)

/-- C9 counterexample: the claim says rendering is idempotent, including a
second call on the same bag the first call used.  In envC9 the leaf
template echoes the bag's content value, so the first call from an empty
bag yields one output and the second call on the bag mutated by the first
yields different bytes. -/
theorem c9_idempotence_counterexample :
    RenderPage envC9 "a" [] = Res.ok (Except.ok "LEAF[]", [("content", Val.html "LEAF[]")]) ∧
    RenderPage envC9 "a" [("content", Val.html "LEAF[]")] =
      Res.ok (Except.ok "LEAF[LEAF[]]", [("content", Val.html "LEAF[LEAF[]]")]) ∧
    ("LEAF[]" : Bytes) ≠ "LEAF[LEAF[]]" :=
  ⟨by decide, by decide, by decide⟩

/-- C9 amended: RenderPage is a pure function of the path and the starting
bag, so equal starting bags give byte-identical output; but a second call
on the bag mutated by the first call is only guaranteed byte-identical when
the chain's leaf template's output does not depend on the bag's content
key — then the second call reproduces the same bytes and the same final
bag.  In general (a content-sensitive leaf) the second call may differ, as
the counterexample shows. -/
theorem c9_idempotence_amended (env : Env) (path p leaf : String) (rest : List String)
    (bag bag2 : Bag) (bytes : Bytes)
    (hparse : parsePath env.Pages path = Except.ok p)
    (hchain : pathsToTemplates p = leaf :: rest)
    (hleaf : ∀ b1 b2 : Bag, (∀ k, k ≠ "content" → bagGet b1 k = bagGet b2 k) →
      renderAt env.Pages leaf b1 = renderAt env.Pages leaf b2)
    (h1 : RenderPage env path bag = Res.ok (Except.ok bytes, bag2)) :
    RenderPage env path bag2 = Res.ok (Except.ok bytes, bag2) := by
  obtain ⟨hr, p', hp, hloop, hbytes⟩ := RenderPage_ok_inv env path bag bytes bag2 h1
  rw [hparse] at hp
  injection hp with hpp
  subst hpp
  rw [hchain] at hloop
  rw [renderLoop] at hloop
  cases hat : renderAt env.Pages leaf bag with
  | error e => rw [hat] at hloop; simp at hloop
  | ok b0 =>
    rw [hat] at hloop
    simp only [] at hloop
    obtain ⟨w, hw⟩ := renderLoop_bagSet env rest bag (Val.html (trimBytes b0)) bag2 hloop
    have hagree : ∀ k, k ≠ "content" → bagGet bag2 k = bagGet bag k := by
      intro k hk
      rw [hw]
      exact bagGet_bagSet_ne bag "content" k w hk
    have hat2 : renderAt env.Pages leaf bag2 = Except.ok b0 := by
      rw [hleaf bag2 bag hagree, hat]
    have hbs : bagSet bag2 "content" (Val.html (trimBytes b0)) =
        bagSet bag "content" (Val.html (trimBytes b0)) := by
      rw [hw, bagSet_bagSet]
    unfold RenderPage
    rw [if_pos hr, hparse]
    simp only []
    rw [hchain, renderLoop, hat2]
    simp only []
    rw [hbs, hloop]
    simp only []
    rw [hbytes]

/-- Witness for the amended C9: with a content-insensitive leaf, calling
RenderPage again on the bag produced by a first call reproduces the first
call's bytes and bag. -/
theorem c9_idempotence_amended_witness :
    RenderPage envC9b "a" [("content", Val.html "[X]")] =
      Res.ok (Except.ok "[X]", [("content", Val.html "[X]")]) :=
  c9_idempotence_amended envC9b "a" "a" "a" [""] [] [("content", Val.html "[X]")] "[X]"
    (by decide) (by decide) (fun b1 b2 _ => rfl) (by decide)

/-- C10: when RenderPage fails right after a successful template, the
returned bag keeps that template's trimmed HTML under the content key —
the mutation is not rolled back (first and second conjuncts) — and Render
passes exactly that mutated bag to RenderError (third conjunct). -/
theorem c10_mutation_not_rolled_back (env : Env) (fuel : Nat) (path p : String)
    (pre0 : List String) (q pt : String) (post : List String) (bag bag0 : Bag) (b : Bytes) (e : Err)
    (hready : env.ready = true)
    (hparse : parsePath env.Pages path = Except.ok p)
    (hchain : pathsToTemplates p = pre0 ++ q :: pt :: post)
    (hpre : renderLoop env pre0 bag = (bag0, none))
    (hq : renderAt env.Pages q bag0 = Except.ok b)
    (hfail : renderAt env.Pages pt (bagSet bag0 "content" (Val.html (trimBytes b))) = Except.error e) :
    RenderPage env path bag = Res.ok (Except.error e, bagSet bag0 "content" (Val.html (trimBytes b))) ∧
    bagGet (bagSet bag0 "content" (Val.html (trimBytes b))) "content" =
      some (Val.html (trimBytes b)) ∧
    Render env fuel path bag =
      RenderError env fuel (some e) (bagSet bag0 "content" (Val.html (trimBytes b))) := by
  have hloop : renderLoop env (pre0 ++ q :: pt :: post) bag =
      (bagSet bag0 "content" (Val.html (trimBytes b)), some e) := by
    rw [renderLoop_append_ok env pre0 (q :: pt :: post) bag bag0 hpre]
    rw [renderLoop, hq]
    simp only []
    rw [renderLoop, hfail]
  have hpage : RenderPage env path bag =
      Res.ok (Except.error e, bagSet bag0 "content" (Val.html (trimBytes b))) := by
    unfold RenderPage
    rw [if_pos hready, hparse]
    simp only []
    rw [hchain, hloop]
  refine ⟨hpage, bagGet_bagSet_same _ _ _, ?_⟩
  unfold Render
  rw [if_pos hready, hpage]

/-- Witness for C10 at a concrete chain whose leaf renders and whose
enclosing layout is missing. -/
theorem c10_mutation_not_rolled_back_witness :
    RenderPage envC10 "a/b" [] =
      Res.ok (Except.error Err.notFound, bagSet [] "content" (Val.html (trimBytes " B "))) ∧
    bagGet (bagSet [] "content" (Val.html (trimBytes " B "))) "content" =
      some (Val.html (trimBytes " B ")) ∧
    Render envC10 7 "a/b" [] =
      RenderError envC10 7 (some Err.notFound) (bagSet [] "content" (Val.html (trimBytes " B "))) :=
  c10_mutation_not_rolled_back envC10 7 "a/b" "a/b" [] "a/b" "a" [""] [] [] " B " Err.notFound
    (by decide) (by decide) (by decide) (by decide) (by decide) (by decide)

end Gotools
